import Mathlib

/-!
Verification development for the ScribeAI real-time session pipeline
(`src/server/index.js` and the services it loads).  The JavaScript source is
shallowly embedded: every handler and service routine becomes a pure Lean
function over an explicit server state, external adapter calls (Gemini model,
Google speech client, ffmpeg extraction, Prisma persistence) are given by an
`Env` record of call outcomes, and wall-clock readings (`Date.now()`,
`new Date().toLocaleString()`) are explicit parameters.  JavaScript strings
are modelled as Lean `String` (split/substring/includes on single-character
separators are modelled on the underlying character list), JavaScript numbers
as `Nat`/`ℚ` as appropriate.
-/

set_option maxRecDepth 10000

namespace ScribeAI

/-- JS `s.substring(0, n)`: the first `n` characters. -/
def jsSubstring (s : String) (n : Nat) : String :=
  String.mk (s.data.take n)

/-- JS `s.split(sep)` for a single-character separator. -/
def jsSplit (s : String) (sep : Char) : List String :=
  (s.data.splitOn sep).map (fun l => String.mk l)

/-- JS `s.toLowerCase()` (ASCII model). -/
def jsToLower (s : String) : String :=
  String.mk (s.data.map Char.toLower)

/-- JS `hay.includes(needle)`. -/
def jsIncludes (hay needle : String) : Bool :=
  decide (List.IsInfix needle.data hay.data)

/-- JS `s.trim()`: strip leading and trailing whitespace. -/
def jsTrim (s : String) : String :=
  String.mk (((s.data.dropWhile Char.isWhitespace).reverse.dropWhile Char.isWhitespace).reverse)

/-- JS `s.padStart(2, '0')` as used on second counters. -/
def padTwo (s : String) : String :=
  if s.length ≥ 2 then s else if s.length = 1 then "0" ++ s else "00"

/-- JS `%` on nonnegative rationals (remainder with the dividend's sign;
all uses in the source have nonnegative dividends). -/
def jsMod (a b : ℚ) : ℚ :=
  a - b * (Int.floor (a / b) : ℚ)

/-- Result record returned by the transcription adapters
(`{ text, confidence, timestamp }`). -/
structure TranscribeResult where
  text : String
  confidence : ℚ
  timestamp : Nat
deriving DecidableEq, Repr

/-- The fixed phrase list of `speech-to-text.service.js`'s
`simulateTranscription` (the deterministic simulator without a counter). -/
def simulatePhrases : List String :=
  ["Thank you for joining today\x27s discussion.",
   "Let\x27s review the main points we need to cover.",
   "I\x27d like to share some thoughts on this topic.",
   "What are your views on this particular issue?",
   "That\x27s a very interesting perspective to consider.",
   "Could you provide more details about that?",
   "I think we should explore this option further.",
   "Let me add some context to this discussion.",
   "Are there any questions about what we\x27ve covered?",
   "We should definitely move forward with this approach.",
   "I appreciate everyone\x27s input on this matter.",
   "Let\x27s discuss the next steps we need to take.",
   "This seems like the right direction to pursue.",
   "We need to consider all the available options.",
   "That makes perfect sense given the circumstances."]

/-- `simulateTranscription` of `speech-to-text.service.js` (lines 60-89):
`phraseIndex = Math.floor((audioSize / 1000) % phrases.length)`,
constant confidence `0.85`. -/
def simulateTranscription (audioSize : Nat) (now : Nat) : TranscribeResult :=
  let phraseIndex : Nat := (Int.floor (jsMod ((audioSize : ℚ) / 1000) 15)).toNat
  { text := simulatePhrases.getD phraseIndex ""
    confidence := 17/20
    timestamp := now }

/-- The 30-phrase list of the simulation-mode speech service
(`SpeechToTextService.simulateTranscription`, counter variant). -/
def conversationPhrases : List String :=
  ["Thank you for joining today\x27s discussion.",
   "Let\x27s review the main points we need to cover.",
   "I\x27d like to share some thoughts on this topic.",
   "What are your views on this particular issue?",
   "That\x27s a very interesting perspective to consider.",
   "Could you provide more details about that?",
   "I think we should explore this option further.",
   "Let me add some context to this discussion.",
   "Are there any questions about what we\x27ve covered?",
   "We should definitely move forward with this approach.",
   "I appreciate everyone\x27s input on this matter.",
   "Let\x27s discuss the next steps we need to take.",
   "This seems like the right direction to pursue.",
   "We need to consider all the available options.",
   "That makes perfect sense given the circumstances.",
   "I agree with what you\x27re saying here.",
   "Let me clarify my position on this.",
   "We have a few different paths we could take.",
   "I think we\x27re making good progress today.",
   "Does anyone else have thoughts on this?",
   "Let me explain my reasoning behind this.",
   "We should prioritize this in our planning.",
   "I can see both sides of this argument.",
   "Let\x27s make sure we\x27re all on the same page.",
   "We need to finalize these details soon.",
   "I have some concerns about this approach.",
   "That\x27s an excellent point to bring up.",
   "We should schedule a follow-up meeting.",
   "Let me check my notes on that.",
   "I think we\x27re almost done here."]

/-- The counter-variant `simulateTranscription`: the internal phrase counter,
`Math.floor(audioSize / 1000)`, `Math.floor(timestamp / 10000)` are summed
modulo the list length; the confidence is `0.85` plus a bounded random
variance, clamped to `[0.75, 0.95]` and rounded by `toFixed(2)` (modelled as
round-half-up to two decimals; `rand` models `Math.random()`).  Returns the
result together with the advanced counter. -/
def simulateTranscriptionCounter (phraseIndex audioSize timestamp : Nat)
    (rand : ℚ) : TranscribeResult × Nat :=
  let combinedIndex :=
    (phraseIndex + audioSize / 1000 + timestamp / 10000) % conversationPhrases.length
  let nextIndex := (phraseIndex + 1) % conversationPhrases.length
  let variance := (rand - 1/2) * (1/10)
  let confidence := min (19/20) (max (3/4) (17/20 + variance))
  ({ text := conversationPhrases.getD combinedIndex ""
     confidence := ((round (confidence * 100) : ℤ) : ℚ) / 100
     timestamp := timestamp }, nextIndex)

/-- `getFallbackTranscript` of `gemini.service.js` (lines 222-234).
`nowStr` is `new Date().toLocaleString()`. -/
def getFallbackTranscript (nowStr : String) (chunkCount duration : Nat)
    (accumulatedText : String) : String :=
  "Transcript - " ++ nowStr ++ "\n\nDuration: " ++ toString (duration / 60) ++
    ":" ++ padTwo (toString (duration % 60)) ++ "\nChunks: " ++
    toString chunkCount ++ "\n\n" ++
    (if accumulatedText = "" then "Conversation content" else accumulatedText) ++
    "\n\nRecording completed."

/-- `generateBasicSummary` of `gemini.service.js` (lines 262-290): the
deterministic structural summary computed from transcript statistics. -/
def generateBasicSummary (nowStr : String) (transcript : String) : String :=
  let lines := (jsSplit transcript '\n').filter (fun line => !(jsTrim line = ""))
  let wordCount := (jsSplit transcript ' ').length
  let low := jsToLower transcript
  let decisions := jsIncludes low "decide" || jsIncludes low "agree"
  let actions := jsIncludes low "action" || jsIncludes low "follow up"
  let meeting := jsIncludes low "meeting" || jsIncludes low "discuss"
  "📋 Professional Summary (AI Analysis Unavailable)\n\n🎯 Key Points:\n• Successfully recorded "
    ++ toString (wordCount / 100) ++ " minutes of content\n• "
    ++ toString lines.length ++ " transcript segments processed\n• "
    ++ (if meeting then "Meeting format detected" else "Conversation recorded")
    ++ "\n\n✅ Decisions Made:\n"
    ++ (if decisions then "• Decision points identified in transcript"
        else "• No explicit decisions detected")
    ++ "\n\n📝 Action Items:\n"
    ++ (if actions then "• Follow-up actions mentioned"
        else "• No specific actions identified")
    ++ "\n\n📊 Recording Stats:\n• Word count: ~" ++ toString wordCount
    ++ " words\n• Generated: " ++ nowStr
    ++ "\n• Status: Complete ✅\n\n💡 Note: AI summarization temporarily unavailable. Full transcript contains all details."

/-- `generateBasicSummaryFromText` of `gemini.service.js` (lines 315-336):
the deterministic fallback for the video/text summarization path. -/
def generateBasicSummaryFromText (nowStr : String) (text : String) : String :=
  let wordCount := (jsSplit text ' ').length
  let sentences := (jsSplit text '.').filter (fun s => !(jsTrim s = ""))
  "📋 Video Content Summary (AI Analysis Unavailable)\n\n🎥 Content Analysis:\n• "
    ++ toString wordCount ++ " words extracted from video\n• "
    ++ toString sentences.length
    ++ " sentences processed\n• Video successfully converted to text\n\n📝 Content Preview:\n"
    ++ jsSubstring text 300 ++ (if text.length > 300 then "..." else "")
    ++ "\n\n📊 Processing Status:\n• Audio extraction: ✅ Complete\n• Speech recognition: ✅ Complete  \n• Text generation: ✅ Complete\n• Processed: "
    ++ nowStr
    ++ "\n\n💡 Note: AI summarization temporarily unavailable. Full text contains all content."

/-- `trimmedText` of `generateSummaryFromText` (gemini.service.js line 299):
deterministic truncation of oversized input at the 6000-character budget. -/
def trimmedText (text : String) : String :=
  if text.length > 6000 then jsSubstring text 6000 ++ "..." else text

/-- The prompt sent to the real backend by `generateSummaryFromText`
(line 300): built from the truncated text. -/
def fastPrompt (text : String) : String :=
  "Key points from this text:\n\n" ++ trimmedText text

/-- Scaffold of `generateSummary`'s prompt before the transcript. -/
def summaryPromptPre : String :=
  "Summarize this transcript:\n\n"

/-- Scaffold of `generateSummary`'s prompt after the transcript. -/
def summaryPromptPost : String :=
  "\n\nProvide:\n📋 Key Points:\n✅ Decisions:\n📝 Actions:\n📊 Insights:"

/-- The prompt sent to the real backend by `generateSummary`
(gemini.service.js lines 242-250): the transcript is embedded whole. -/
def summaryPrompt (transcript : String) : String :=
  summaryPromptPre ++ transcript ++ summaryPromptPost

/-- Server → client events of the socket channel (`src/server/index.js`). -/
inductive SEvent where
  | sessionStarted (sessionId : Nat)
  | transcriptPartialEvt (text : String) (timestamp : Nat) (chunkNumber : Nat)
  | statusUpdateEvt (status : String)
  | videoProcessingEvt (message : String)
  | videoErrorEvt (message : String)
  | errorEvt (message : String)
  | sessionCompleted (transcript : String) (summary : String)
deriving DecidableEq, Repr

/-- One stored audio chunk of a session (`sessionInfo.chunks` entries:
`{ data, timestamp }`). -/
structure StoredChunk where
  data : String
  timestamp : Nat
deriving DecidableEq, Repr

/-- The per-connection entry of the `activeSessions` map
(`index.js` lines 102-109). -/
structure SessionInfo where
  sessionId : Nat
  mode : String
  chunks : List StoredChunk
  transcript : String
  startTime : Nat
deriving DecidableEq, Repr

/-- One chunk record of the gemini service's per-session accumulator. -/
structure GChunk where
  data : String
  timestamp : Nat
  size : Nat
deriving DecidableEq, Repr

/-- One partial-transcript record (`sessionData.partialTranscripts`). -/
structure GPartial where
  text : String
  timestamp : Nat
  chunkIndex : Nat
  confidence : ℚ
deriving DecidableEq, Repr

/-- The gemini service's `audioChunks` map entry (`gemini.service.js`
lines 83-90). -/
structure GeminiData where
  chunks : List GChunk
  partialTranscripts : List GPartial
  totalDuration : Nat
  accumulatedTranscript : String
  realTranscripts : List String
deriving DecidableEq, Repr

/-- The fresh accumulator installed on a session's first chunk. -/
def GeminiData.empty : GeminiData :=
  { chunks := [], partialTranscripts := [], totalDuration := 0
    accumulatedTranscript := "", realTranscripts := [] }

/-- Association-list lookup (keys are session identifiers). -/
def lookupA {α : Type} : List (Nat × α) → Nat → Option α
  | [], _ => none
  | (k', v) :: rest, k => if k' = k then some v else lookupA rest k

/-- Association-list update/insert. -/
def assocSet {α : Type} : List (Nat × α) → Nat → α → List (Nat × α)
  | [], k, v => [(k, v)]
  | (k', v') :: rest, k, v =>
    if k' = k then (k, v) :: rest else (k', v') :: assocSet rest k v

/-- Association-list removal (`audioChunks.delete(sessionId)`). -/
def eraseA {α : Type} : List (Nat × α) → Nat → List (Nat × α)
  | [], _ => []
  | (k', v) :: rest, k =>
    if k' = k then eraseA rest k else (k', v) :: eraseA rest k

/-- Whole server state for one connection: the connection's
`activeSessions` entry, the database rows touched by the handlers
(session status, session duration, transcript rows) and the gemini
service's `audioChunks` map. -/
structure ServerState where
  activeSession : Option SessionInfo
  db : List (Nat × String)
  durations : List (Nat × Nat)
  transcriptsTable : List (Nat × String × String)
  geminiData : List (Nat × GeminiData)
deriving DecidableEq, Repr

/-- Outcomes of every external call a handler can make.  `none` (or a
`false` availability flag) is the failure/unconfigured case; the code
treats a timeout as the same failed-call outcome. -/
structure Env where
  sttReady : Bool
  sttClient : Bool
  recognize : Option (String × ℚ)
  modelPresent : Bool
  enhance : Option String
  format : Option String
  summarize : Option String
  fromTextSummary : Option String
  extract : Option String
  extractErr : String
deriving DecidableEq, Repr

/-- `speech-to-text.service.js` `transcribeAudio` (lines 24-58): without a
configured client it answers with the simulator; with one, a backend error
(`catch`) also falls back to the simulator, so the call never throws. -/
def sttTranscribeAudio (env : Env) (audioSize : Nat) (now : Nat) : TranscribeResult :=
  if !env.sttClient then simulateTranscription audioSize now
  else
    match env.recognize with
    | some (t, c) => { text := t, confidence := c, timestamp := now }
    | none => simulateTranscription audioSize now

/-- `gemini.service.js` `transcribeAudio` (lines 81-145): accumulates the
chunk, obtains `(text, confidence)` from the speech service, records the
partial transcript, and (once three partials exist and a model is
configured) best-effort enhances the newest fragment; `base64` decoding is
abstracted to the payload itself, so `audioSize` is the payload length. -/
def geminiTranscribeAudio (gmap : List (Nat × GeminiData)) (env : Env)
    (sessionId : Nat) (audioData : String) (now : Nat) :
    List (Nat × GeminiData) × TranscribeResult :=
  let data := (lookupA gmap sessionId).getD GeminiData.empty
  let data := { data with
    chunks := data.chunks ++ [({ data := audioData, timestamp := now, size := audioData.length } : GChunk)]
    totalDuration := data.totalDuration + 3 }
  let chunkCount := data.chunks.length
  let r := sttTranscribeAudio env audioData.length now
  let data := { data with
    partialTranscripts := data.partialTranscripts ++
      [({ text := r.text, timestamp := now, chunkIndex := chunkCount, confidence := r.confidence } : GPartial)]
    realTranscripts := data.realTranscripts ++ [r.text]
    accumulatedTranscript := data.accumulatedTranscript ++ r.text ++ " " }
  let finalText :=
    if env.modelPresent ∧ 3 ≤ data.realTranscripts.length then
      match env.enhance with
      | some e => if e = "" then r.text else e
      | none => r.text
    else r.text
  (assocSet gmap sessionId data,
   { text := finalText, confidence := r.confidence, timestamp := now })

/-- `generateSummary` of `gemini.service.js` (lines 236-260): real backend
when available and successful, otherwise the deterministic
`generateBasicSummary` of the full transcript. -/
def generateSummary (env : Env) (nowStr : String) (transcript : String) : String :=
  if !env.modelPresent then generateBasicSummary nowStr transcript
  else
    match env.summarize with
    | some s => s
    | none => generateBasicSummary nowStr transcript

/-- `generateTranscript` of `gemini.service.js` (lines 161-220): formats the
accumulated fragments through the model when available, falling back to
`getFallbackTranscript` on failure or absence; then summarizes and clears
the session's accumulator. -/
def geminiGenerateTranscript (gmap : List (Nat × GeminiData)) (env : Env)
    (sessionId : Nat) (nowStr : String) :
    List (Nat × GeminiData) × String × String :=
  let data := (lookupA gmap sessionId).getD GeminiData.empty
  let transcript :=
    if env.modelPresent then
      match env.format with
      | some r =>
        "Transcript - " ++ nowStr ++ "\n\nDuration: " ++
          toString (data.totalDuration / 60) ++ ":" ++
          padTwo (toString (data.totalDuration % 60)) ++ "\n\n" ++ r
      | none =>
        getFallbackTranscript nowStr data.chunks.length data.totalDuration
          data.accumulatedTranscript
    else
      getFallbackTranscript nowStr data.chunks.length data.totalDuration
        data.accumulatedTranscript
  let summary := generateSummary env nowStr transcript
  (eraseA gmap sessionId, transcript, summary)

/-- `generateSummaryFromText` of `gemini.service.js` (lines 292-313):
the real path sends `fastPrompt` (the truncated text) to the backend and
wraps its answer; failure or absence uses the full-text fallback.
`procMs` is the measured processing time interpolated into the banner. -/
def generateSummaryFromText (env : Env) (nowStr : String) (procMs : Nat)
    (text : String) : String :=
  if !env.modelPresent then generateBasicSummaryFromText nowStr text
  else
    match env.fromTextSummary with
    | some s =>
      "⚡ AI Summary (" ++ toString procMs ++ "ms)\n\n" ++ s ++
        "\n\n🤖 Generated by Gemini 2.0 Flash"
    | none => generateBasicSummaryFromText nowStr text

/-- Payload of a client `audio:chunk` event. -/
structure ChunkPayload where
  sessionId : Nat
  data : String
  timestamp : Nat
deriving DecidableEq, Repr

/-- Payload of a client `video:upload` event. -/
structure UploadPayload where
  sessionId : Nat
  data : String
  filename : String
  fileSize : Nat
deriving DecidableEq, Repr

/-- `socket.on('session:start')` (index.js lines 79-118): creates the
database row (status `recording`) and unconditionally installs the new
session as this connection's `activeSessions` entry. -/
def handleSessionStart (st : ServerState) (newId : Nat) (now : Nat)
    (mode : String) : ServerState × List SEvent :=
  ({ st with
      db := assocSet st.db newId "recording"
      activeSession := some
        { sessionId := newId, mode := mode, chunks := [], transcript := ""
          startTime := now } },
   [.sessionStarted newId])

/-- `socket.on('audio:chunk')` (index.js lines 120-154): stores the chunk,
then (if the speech service reports ready) transcribes it and emits the
partial-transcript event numbered by the current chunk count. -/
def handleAudioChunk (st : ServerState) (env : Env) (p : ChunkPayload)
    (now : Nat) : ServerState × List SEvent :=
  match st.activeSession with
  | none => (st, [])
  | some info =>
    let info := { info with
      chunks := info.chunks ++ [{ data := p.data, timestamp := p.timestamp }] }
    if !env.sttReady then
      ({ st with activeSession := some info },
       [.errorEvt "Speech-to-Text not configured. Set up Google Cloud credentials."])
    else
      let res := geminiTranscribeAudio st.geminiData env p.sessionId p.data now
      let info := { info with transcript := info.transcript ++ res.2.text ++ " " }
      ({ st with activeSession := some info, geminiData := res.1 },
       [.transcriptPartialEvt res.2.text p.timestamp info.chunks.length])

/-- `socket.on('session:pause')` (index.js lines 156-167): writes status
`paused` for the named session and notifies; no state is consulted. -/
def handlePause (st : ServerState) (sessionId : Nat) : ServerState × List SEvent :=
  ({ st with db := assocSet st.db sessionId "paused" },
   [.statusUpdateEvt "paused"])

/-- `socket.on('session:resume')` (index.js lines 169-180). -/
def handleResume (st : ServerState) (sessionId : Nat) : ServerState × List SEvent :=
  ({ st with db := assocSet st.db sessionId "recording" },
   [.statusUpdateEvt "recording"])

/-- `socket.on('session:stop')` (index.js lines 253-304): marks the session
`processing`, builds transcript and summary through the gemini service,
persists them, marks the session `completed` with its wall-clock duration,
emits the completion event and removes the registry entry. -/
def handleStop (st : ServerState) (env : Env) (sessionId : Nat)
    (nowStr : String) (nowMs : Nat) : ServerState × List SEvent :=
  match st.activeSession with
  | none => (st, [])
  | some info =>
    let db1 := assocSet st.db sessionId "processing"
    let r := geminiGenerateTranscript st.geminiData env sessionId nowStr
    let duration := (nowMs - info.startTime) / 1000
    ({ st with
        activeSession := none
        db := assocSet db1 sessionId "completed"
        durations := assocSet st.durations sessionId duration
        transcriptsTable := st.transcriptsTable ++ [(sessionId, r.2.1, r.2.2)]
        geminiData := r.1 },
     [.statusUpdateEvt "processing", .sessionCompleted r.2.1 r.2.2])

/-- `socket.on('video:upload')` (index.js lines 182-251): rejects oversized
uploads before any processing, then extracts, summarizes, persists and
completes the session. -/
def handleVideoUpload (st : ServerState) (env : Env) (p : UploadPayload)
    (nowStr : String) (procMs : Nat) : ServerState × List SEvent :=
  match st.activeSession with
  | none => (st, [.videoErrorEvt "Session not found"])
  | some _ =>
    if p.fileSize > 100 * 1024 * 1024 then
      (st, [.videoErrorEvt "Video file too large. Maximum size is 100MB."])
    else
      let evs := [SEvent.videoProcessingEvt "⚡ Starting high-speed processing...",
                  SEvent.videoProcessingEvt "🎵 Extracting audio (optimized)..."]
      match env.extract with
      | none => (st, evs ++ [.videoErrorEvt env.extractErr])
      | some transcriptText =>
        if jsTrim transcriptText = "" then
          (st, evs ++ [.videoErrorEvt "No speech detected in video. Please ensure the video has clear audio."])
        else
          let summary := generateSummaryFromText env nowStr procMs transcriptText
          ({ st with
              activeSession := none
              transcriptsTable := st.transcriptsTable ++ [(p.sessionId, transcriptText, summary)]
              db := assocSet st.db p.sessionId "completed"
              durations := assocSet st.durations p.sessionId (p.data.length / 16000) },
           evs ++ [.videoProcessingEvt "🤖 Generating AI summary...",
                   .sessionCompleted transcriptText summary])

/-- `socket.on('disconnect')` (index.js lines 306-309): drops the
connection's registry entry; nothing else happens. -/
def handleDisconnect (st : ServerState) : ServerState × List SEvent :=
  ({ st with activeSession := none }, [])

/-- One client-side command together with the call outcomes and clock
readings of its handling. -/
inductive Cmd where
  | start (newId : Nat) (now : Nat) (mode : String)
  | chunk (p : ChunkPayload) (env : Env) (now : Nat)
  | pause (sid : Nat)
  | resume (sid : Nat)
  | stop (sid : Nat) (env : Env) (nowStr : String) (nowMs : Nat)
  | upload (p : UploadPayload) (env : Env) (nowStr : String) (procMs : Nat)
  | disconnect
deriving Repr

/-- Dispatch of one socket event to its handler. -/
def stepCmd (st : ServerState) : Cmd → ServerState × List SEvent
  | .start newId now mode => handleSessionStart st newId now mode
  | .chunk p env now => handleAudioChunk st env p now
  | .pause sid => handlePause st sid
  | .resume sid => handleResume st sid
  | .stop sid env nowStr nowMs => handleStop st env sid nowStr nowMs
  | .upload p env nowStr procMs => handleVideoUpload st env p nowStr procMs
  | .disconnect => handleDisconnect st

/-!
Cooperative-concurrency model of chunk ingestion for one session.  The
`audio:chunk` handler is split at its `await`: the synchronous prefix
(phase A) pushes the chunk onto `sessionInfo.chunks` and starts the
adapter call; the continuation (phase B) runs when that call resolves and
emits `transcript:partial` with `chunkNumber` read from the *current*
`sessionInfo.chunks.length`.  A schedule interleaves phase-A arrivals,
phase-B resolutions (in any order, modelling adapter latency variance) and
the stop finalization. -/

/-- One incoming chunk together with the text its adapter call will
eventually produce. -/
structure AChunk where
  data : String
  ts : Nat
  tx : String
deriving DecidableEq, Repr

/-- A scheduler step: a chunk's handler starts (phase A), a suspended
handler's adapter call resolves (phase B, for the i-th pending call), or
the stop finalization emits its completion event. -/
inductive AOp where
  | arrive (c : AChunk)
  | resolveTask (i : Nat)
  | stopFinalize (tr su : String)
deriving Repr

/-- The session-scoped state seen by the interleaved handlers. -/
structure AsyncState where
  chunks : List (String × Nat)
  pending : List (String × Nat)
  transcript : String
  events : List SEvent
deriving DecidableEq, Repr

/-- The empty initial state of a fresh session. -/
def initAsync : AsyncState :=
  { chunks := [], pending := [], transcript := "", events := [] }

/-- One scheduler step of the interleaving semantics. -/
def astep (s : AsyncState) : AOp → AsyncState
  | .arrive c =>
    { s with chunks := s.chunks ++ [(c.data, c.ts)]
             pending := s.pending ++ [(c.tx, c.ts)] }
  | .resolveTask i =>
    match s.pending.get? i with
    | none => s
    | some (tx, ts) =>
      { s with pending := s.pending.eraseIdx i
               transcript := s.transcript ++ tx ++ " "
               events := s.events ++ [.transcriptPartialEvt tx ts s.chunks.length] }
  | .stopFinalize tr su =>
    { s with events := s.events ++ [.sessionCompleted tr su] }

/-- Run a whole schedule. -/
def arun (ops : List AOp) (s : AsyncState) : AsyncState :=
  ops.foldl astep s

/-- The fully sequential schedule: each chunk's adapter call resolves
before the next chunk arrives. -/
def seqOps : List AChunk → List AOp
  | [] => []
  | c :: cs => .arrive c :: .resolveTask 0 :: seqOps cs

/-- The partial events the claim predicts for chunks `C1..Cn`: in arrival
order, numbered from `k+1` upward. -/
def seqEventsFrom (k : Nat) : List AChunk → List SEvent
  | [] => []
  | c :: cs => .transcriptPartialEvt c.tx c.ts (k + 1) :: seqEventsFrom (k + 1) cs

/-! Concrete environments and states used by the closed instances below. -/

/-- Every adapter call fails (or, for extraction, throws): model configured
but each `generateContent`/`recognize` call errors, extraction errors. -/
def failEnv : Env :=
  { sttReady := true, sttClient := true, recognize := none, modelPresent := true
    enhance := none, format := none, summarize := none, fromTextSummary := none
    extract := none, extractErr := "boom" }

/-- No real backend configured anywhere: the deterministic simulators and
fallback formatters are the only code paths. -/
def simEnv : Env :=
  { sttReady := true, sttClient := false, recognize := none, modelPresent := false
    enhance := none, format := none, summarize := none, fromTextSummary := none
    extract := none, extractErr := "boom" }

/-- A freshly started session with identifier 1. -/
def baseInfo : SessionInfo :=
  { sessionId := 1, mode := "microphone", chunks := [], transcript := ""
    startTime := 0 }

/-- A connection owning session 1, recorded as `recording` in the store. -/
def baseState : ServerState :=
  { activeSession := some baseInfo, db := [(1, "recording")], durations := []
    transcriptsTable := [], geminiData := [] }

/-- Session 1 after its status was set to `paused`. -/
def pausedState : ServerState :=
  { baseState with db := [(1, "paused")] }

/-- A recording session that has already ingested one chunk. -/
def recState : ServerState :=
  { activeSession := some
      { sessionId := 1, mode := "microphone"
        chunks := [{ data := "d", timestamp := 1 }]
        transcript := "t ", startTime := 0 }
    db := [(1, "recording")], durations := [], transcriptsTable := []
    geminiData := [] }

/-- The clock-independent tail of `getFallbackTranscript`. -/
def fallbackTranscriptRest (chunkCount duration : Nat) (accumulatedText : String) : String :=
  "\n\nDuration: " ++ toString (duration / 60) ++ ":" ++
    padTwo (toString (duration % 60)) ++ "\nChunks: " ++ toString chunkCount ++
    "\n\n" ++
    (if accumulatedText = "" then "Conversation content" else accumulatedText) ++
    "\n\nRecording completed."

/-- The part of `generateBasicSummary`'s output before the interpolated
clock string: it depends only on the transcript. -/
def basicSummaryStats (transcript : String) : String :=
  let lines := (jsSplit transcript '\n').filter (fun line => !(jsTrim line = ""))
  let wordCount := (jsSplit transcript ' ').length
  let low := jsToLower transcript
  let decisions := jsIncludes low "decide" || jsIncludes low "agree"
  let actions := jsIncludes low "action" || jsIncludes low "follow up"
  let meeting := jsIncludes low "meeting" || jsIncludes low "discuss"
  "📋 Professional Summary (AI Analysis Unavailable)\n\n🎯 Key Points:\n• Successfully recorded "
    ++ toString (wordCount / 100) ++ " minutes of content\n• "
    ++ toString lines.length ++ " transcript segments processed\n• "
    ++ (if meeting then "Meeting format detected" else "Conversation recorded")
    ++ "\n\n✅ Decisions Made:\n"
    ++ (if decisions then "• Decision points identified in transcript"
        else "• No explicit decisions detected")
    ++ "\n\n📝 Action Items:\n"
    ++ (if actions then "• Follow-up actions mentioned"
        else "• No specific actions identified")
    ++ "\n\n📊 Recording Stats:\n• Word count: ~" ++ toString wordCount
    ++ " words\n• Generated: "

/-- The constant tail of `generateBasicSummary`'s output after the clock. -/
def basicSummaryTail : String :=
  "\n• Status: Complete ✅\n\n💡 Note: AI summarization temporarily unavailable. Full transcript contains all details."

/-- A 6001-character transcript: one character over the 6000 budget. -/
def bigText : String :=
  String.mk (List.replicate 6001 'a')

/-- A transcript agreeing with `bigText` on the first 6000 characters but
containing a decision keyword beyond the budget. -/
def decideText : String :=
  String.mk (List.replicate 6000 'a' ++ "decide".data)

/-- `basicSummaryStats` evaluated at a one-word, one-line transcript with no
meeting/action keyword, with the decisions flag left as a parameter. -/
def basicSummaryStatsVal (decisions : Bool) : String :=
  "📋 Professional Summary (AI Analysis Unavailable)\n\n🎯 Key Points:\n• Successfully recorded "
    ++ toString (0 : Nat) ++ " minutes of content\n• "
    ++ toString (1 : Nat) ++ " transcript segments processed\n• "
    ++ "Conversation recorded"
    ++ "\n\n✅ Decisions Made:\n"
    ++ (if decisions then "• Decision points identified in transcript"
        else "• No explicit decisions detected")
    ++ "\n\n📝 Action Items:\n"
    ++ "• No specific actions identified"
    ++ "\n\n📊 Recording Stats:\n• Word count: ~" ++ toString (1 : Nat)
    ++ " words\n• Generated: "

/-! Helper lemmas. -/

theorem sAppend_assoc (a b c : String) : a ++ b ++ c = a ++ (b ++ c) :=
  String.append_assoc a b c

theorem sLen_append (a b : String) : (a ++ b).length = a.length + b.length := by
  cases a with
  | mk da =>
    cases b with
    | mk db => simp [String.length, String.append]

theorem lookupA_assocSet {α : Type} (m : List (Nat × α)) (k : Nat) (v : α) :
    lookupA (assocSet m k v) k = some v := by
  induction m with
  | nil => simp [assocSet, lookupA]
  | cons kv rest ih =>
    obtain ⟨k', v'⟩ := kv
    by_cases h : k' = k
    · simp [assocSet, h, lookupA]
    · simp [assocSet, h, lookupA, ih]

theorem mem_assocSet {α : Type} {m : List (Nat × α)} {k : Nat} {v : α}
    {kv : Nat × α} (h : kv ∈ assocSet m k v) : kv ∈ m ∨ kv = (k, v) := by
  induction m with
  | nil =>
    simp [assocSet] at h
    exact Or.inr h
  | cons hd rest ih =>
    obtain ⟨k', v'⟩ := hd
    by_cases hk : k' = k
    · simp [assocSet, hk] at h
      rcases h with h | h
      · exact Or.inr (by simp [h])
      · exact Or.inl (List.mem_cons_of_mem _ h)
    · simp [assocSet, hk] at h
      rcases h with h | h
      · exact Or.inl (by simp [h])
      · rcases ih h with h' | h'
        · exact Or.inl (List.mem_cons_of_mem _ h')
        · exact Or.inr h'

theorem jsMod_bound (a b : ℚ) (hb : 0 < b) : 0 ≤ jsMod a b ∧ jsMod a b < b := by
  unfold jsMod
  constructor
  · have h1 : (Int.floor (a / b) : ℚ) ≤ a / b := Int.floor_le _
    have h2 : b * (Int.floor (a / b) : ℚ) ≤ b * (a / b) :=
      mul_le_mul_of_nonneg_left h1 hb.le
    have h3 : b * (a / b) = a := by field_simp
    linarith
  · have h1 : a / b < (Int.floor (a / b) : ℚ) + 1 := Int.lt_floor_add_one _
    have h2 : a < ((Int.floor (a / b) : ℚ) + 1) * b := (div_lt_iff₀ hb).mp h1
    have h3 : ((Int.floor (a / b) : ℚ) + 1) * b = b * (Int.floor (a / b) : ℚ) + b := by
      ring
    linarith

theorem getD_mem_of_lt {l : List String} {i : Nat} (h : i < l.length) :
    l.getD i "" ∈ l := by
  rw [List.getD_eq_getElem _ _ h]
  exact List.getElem_mem h

theorem mk_data (s : String) : String.mk s.data = s := rfl

theorem sData_append (a b : String) : (a ++ b).data = a.data ++ b.data := rfl

theorem sLen_def (s : String) : s.length = s.data.length := rfl

theorem sAppend_right_cancel {a b x : String} (h : a ++ x = b ++ x) : a = b := by
  have hd : a.data ++ x.data = b.data ++ x.data := by
    have := congrArg String.data h
    simpa [sData_append] using this
  have h2 := (List.append_inj' hd rfl).1
  have h3 := congrArg String.mk h2
  simpa [mk_data] using h3

theorem jsSubstring_length (s : String) (n : Nat) :
    (jsSubstring s n).length = min n s.length := by
  change (s.data.take n).length = min n s.length
  rw [List.length_take, sLen_def]

theorem trimmedText_of_le {t : String} (h : t.length ≤ 6000) : trimmedText t = t := by
  simp only [trimmedText]
  rw [if_neg (by omega)]

theorem trimmedText_length_gt {t : String} (h : 6000 < t.length) :
    (trimmedText t).length = 6003 := by
  simp only [trimmedText]
  rw [if_pos (by omega)]
  rw [sLen_append, jsSubstring_length]
  have h3 : ("..." : String).length = 3 := rfl
  omega

theorem jsSubstring_append_idem (t : String) (h : 6000 < t.length) :
    jsSubstring (jsSubstring t 6000 ++ "...") 6000 = jsSubstring t 6000 := by
  have hdata : (jsSubstring t 6000 ++ ("..." : String)).data =
      t.data.take 6000 ++ ("..." : String).data := rfl
  have hl : (t.data.take 6000).length = 6000 := by
    rw [List.length_take]
    have := sLen_def t
    omega
  show String.mk ((jsSubstring t 6000 ++ ("..." : String)).data.take 6000) = _
  rw [hdata, List.take_append_eq_append_take, hl]
  simp [List.take_take, jsSubstring]

theorem trimmedText_idem (t : String) : trimmedText (trimmedText t) = trimmedText t := by
  by_cases h : t.length ≤ 6000
  · rw [trimmedText_of_le h]
    exact trimmedText_of_le h
  · have h' : 6000 < t.length := by omega
    have hl := trimmedText_length_gt h'
    have ht : trimmedText t = jsSubstring t 6000 ++ "..." := by
      simp only [trimmedText]
      rw [if_pos (by omega)]
    conv_lhs => rw [trimmedText]
    rw [if_pos (show (trimmedText t).length > 6000 by omega)]
    rw [ht, jsSubstring_append_idem t h']

theorem jsSplit_no_sep {s : String} {sep : Char} (h : ∀ c ∈ s.data, ¬ c = sep) :
    jsSplit s sep = [s] := by
  unfold jsSplit
  rw [show List.splitOn sep s.data = List.splitOnP (fun x => x == sep) s.data from rfl]
  rw [List.splitOnP_eq_single]
  · simp [mk_data]
  · intro x hx
    simpa using h x hx

theorem jsIncludes_false_of_missing {hay needle : String} {c : Char}
    (hc : c ∈ needle.data) (hmiss : c ∉ hay.data) : jsIncludes hay needle = false := by
  unfold jsIncludes
  apply decide_eq_false
  intro hinf
  exact hmiss (hinf.subset hc)

theorem mem_rep_app {c a : Char} {n : Nat} {l : List Char}
    (h : c ∈ List.replicate n a ++ l) : c = a ∨ c ∈ l := by
  rcases List.mem_append.mp h with h | h
  · exact Or.inl (List.eq_of_mem_replicate h)
  · exact Or.inr h

theorem jsTrim_eq_self {s : String} (h : ∀ c ∈ s.data, Char.isWhitespace c = false) :
    jsTrim s = s := by
  have h1 : s.data.dropWhile Char.isWhitespace = s.data := by
    cases hd : s.data with
    | nil => simp
    | cons c cs =>
      rw [List.dropWhile_cons]
      rw [h c (by rw [hd]; exact List.mem_cons_self c cs)]
      simp
  have h2 : (s.data.reverse.dropWhile Char.isWhitespace) = s.data.reverse := by
    cases hd : s.data.reverse with
    | nil => simp
    | cons c cs =>
      rw [List.dropWhile_cons]
      rw [h c (by
        have : c ∈ s.data.reverse := by rw [hd]; exact List.mem_cons_self c cs
        exact List.mem_reverse.mp this)]
      simp
  unfold jsTrim
  rw [h1, h2, List.reverse_reverse, mk_data]

/-! Facts about the two C8 witness transcripts. -/

theorem bigText_length : bigText.length = 6001 := by
  rw [show bigText.length = (List.replicate 6001 'a').length from rfl]
  exact List.length_replicate 6001 'a'

theorem decideText_length : decideText.length = 6006 := by
  rw [show decideText.length =
        (List.replicate 6000 'a' ++ ("decide" : String).data).length from rfl]
  rw [List.length_append, List.length_replicate]
  decide

theorem bigText_ne_empty : bigText ≠ "" := by
  intro h
  have := congrArg String.length h
  rw [bigText_length] at this
  exact absurd this (by decide)

theorem decideText_ne_empty : decideText ≠ "" := by
  intro h
  have := congrArg String.length h
  rw [decideText_length] at this
  exact absurd this (by decide)

theorem bigText_all_a : ∀ c ∈ bigText.data, c = 'a' := by
  intro c hc
  exact List.eq_of_mem_replicate hc

theorem decideText_chars : ∀ c ∈ decideText.data, c = 'a' ∨ c ∈ ("decide" : String).data := by
  intro c hc
  exact mem_rep_app hc

theorem not_in_bigText {c : Char} (h : ¬ c = 'a') : c ∉ bigText.data := by
  intro hm
  exact h (bigText_all_a c hm)

theorem not_in_decideText {c : Char} (h1 : ¬ c = 'a')
    (h2 : c ∉ ("decide" : String).data) : c ∉ decideText.data := by
  intro hm
  rcases decideText_chars c hm with h | h
  · exact h1 h
  · exact h2 h

theorem jsTrim_bigText : jsTrim bigText = bigText := by
  apply jsTrim_eq_self
  intro c hc
  rw [bigText_all_a c hc]
  decide

theorem jsTrim_decideText : jsTrim decideText = decideText := by
  apply jsTrim_eq_self
  intro c hc
  rcases decideText_chars c hc with h | h
  · rw [h]; decide
  · have hall : ∀ x ∈ ("decide" : String).data, Char.isWhitespace x = false := by decide
    exact hall c h

theorem split_space_bigText : jsSplit bigText ' ' = [bigText] := by
  apply jsSplit_no_sep
  intro c hc
  rw [bigText_all_a c hc]
  decide

theorem split_nl_bigText : jsSplit bigText '\n' = [bigText] := by
  apply jsSplit_no_sep
  intro c hc
  rw [bigText_all_a c hc]
  decide

theorem split_space_decideText : jsSplit decideText ' ' = [decideText] := by
  apply jsSplit_no_sep
  intro c hc
  rcases decideText_chars c hc with h | h
  · rw [h]; decide
  · have hall : ∀ x ∈ ("decide" : String).data, ¬ x = ' ' := by decide
    exact hall c h

theorem split_nl_decideText : jsSplit decideText '\n' = [decideText] := by
  apply jsSplit_no_sep
  intro c hc
  rcases decideText_chars c hc with h | h
  · rw [h]; decide
  · have hall : ∀ x ∈ ("decide" : String).data, ¬ x = '\n' := by decide
    exact hall c h

theorem lines_bigText :
    (jsSplit bigText '\n').filter (fun line => !(jsTrim line = "")) = [bigText] := by
  rw [split_nl_bigText]
  simp [List.filter_cons, jsTrim_bigText, decide_eq_false bigText_ne_empty]

theorem lines_decideText :
    (jsSplit decideText '\n').filter (fun line => !(jsTrim line = "")) = [decideText] := by
  rw [split_nl_decideText]
  simp [List.filter_cons, jsTrim_decideText, decide_eq_false decideText_ne_empty]

theorem low_bigText : jsToLower bigText = bigText := by
  have h : bigText.data.map Char.toLower = bigText.data := by
    rw [show bigText.data = List.replicate 6001 'a' from rfl, List.map_replicate]
    rw [show Char.toLower 'a' = 'a' from by decide]
  unfold jsToLower
  rw [h, mk_data]

theorem low_decideText : jsToLower decideText = decideText := by
  have h : decideText.data.map Char.toLower = decideText.data := by
    rw [show decideText.data = List.replicate 6000 'a' ++ ("decide" : String).data from rfl]
    rw [List.map_append, List.map_replicate]
    rw [show Char.toLower 'a' = 'a' from by decide]
    rw [show ("decide" : String).data.map Char.toLower = ("decide" : String).data from by decide]
  unfold jsToLower
  rw [h, mk_data]

theorem inc_big_decide : jsIncludes bigText "decide" = false :=
  jsIncludes_false_of_missing (c := 'd') (by decide) (not_in_bigText (by decide))

theorem inc_big_agree : jsIncludes bigText "agree" = false :=
  jsIncludes_false_of_missing (c := 'g') (by decide) (not_in_bigText (by decide))

theorem inc_big_action : jsIncludes bigText "action" = false :=
  jsIncludes_false_of_missing (c := 't') (by decide) (not_in_bigText (by decide))

theorem inc_big_follow : jsIncludes bigText "follow up" = false :=
  jsIncludes_false_of_missing (c := 'f') (by decide) (not_in_bigText (by decide))

theorem inc_big_meeting : jsIncludes bigText "meeting" = false :=
  jsIncludes_false_of_missing (c := 'm') (by decide) (not_in_bigText (by decide))

theorem inc_big_discuss : jsIncludes bigText "discuss" = false :=
  jsIncludes_false_of_missing (c := 's') (by decide) (not_in_bigText (by decide))

theorem inc_dec_decide : jsIncludes decideText "decide" = true := by
  unfold jsIncludes
  apply decide_eq_true
  refine ⟨List.replicate 6000 'a', [], ?_⟩
  rw [List.append_nil]
  rfl

theorem inc_dec_action : jsIncludes decideText "action" = false :=
  jsIncludes_false_of_missing (c := 't') (by decide) (not_in_decideText (by decide) (by decide))

theorem inc_dec_follow : jsIncludes decideText "follow up" = false :=
  jsIncludes_false_of_missing (c := 'f') (by decide) (not_in_decideText (by decide) (by decide))

theorem inc_dec_meeting : jsIncludes decideText "meeting" = false :=
  jsIncludes_false_of_missing (c := 'm') (by decide) (not_in_decideText (by decide) (by decide))

theorem inc_dec_discuss : jsIncludes decideText "discuss" = false :=
  jsIncludes_false_of_missing (c := 's') (by decide) (not_in_decideText (by decide) (by decide))

theorem stats_bigText : basicSummaryStats bigText = basicSummaryStatsVal false := by
  simp only [basicSummaryStats, basicSummaryStatsVal]
  rw [split_space_bigText, lines_bigText, low_bigText, inc_big_decide, inc_big_agree,
    inc_big_action, inc_big_follow, inc_big_meeting, inc_big_discuss]
  simp

theorem stats_decideText : basicSummaryStats decideText = basicSummaryStatsVal true := by
  simp only [basicSummaryStats, basicSummaryStatsVal]
  rw [split_space_decideText, lines_decideText, low_decideText, inc_dec_decide,
    inc_dec_action, inc_dec_follow, inc_dec_meeting, inc_dec_discuss]
  simp

theorem trims_agree : trimmedText bigText = trimmedText decideText := by
  have h1 : trimmedText bigText = jsSubstring bigText 6000 ++ "..." := by
    simp only [trimmedText]
    rw [if_pos (by rw [bigText_length]; omega)]
  have h2 : trimmedText decideText = jsSubstring decideText 6000 ++ "..." := by
    simp only [trimmedText]
    rw [if_pos (by rw [decideText_length]; omega)]
  rw [h1, h2]
  have hdata : bigText.data.take 6000 = decideText.data.take 6000 := by
    rw [show bigText.data = List.replicate 6001 'a' from rfl]
    rw [show decideText.data = List.replicate 6000 'a' ++ ("decide" : String).data from rfl]
    rw [List.take_replicate, List.take_append_eq_append_take, List.take_replicate,
      List.length_replicate]
    rw [show min 6000 6001 = 6000 from by decide]
    rw [show min 6000 6000 = 6000 from by decide]
    rw [show (6000 - 6000 : Nat) = 0 from by decide]
    rw [List.take_zero, List.append_nil]
  have h3 : jsSubstring bigText 6000 = jsSubstring decideText 6000 :=
    congrArg String.mk hdata
  rw [h3]

theorem basicSummary_factored (nowStr t : String) :
    generateBasicSummary nowStr t = basicSummaryStats t ++ nowStr ++ basicSummaryTail := by
  simp only [generateBasicSummary, basicSummaryStats, basicSummaryTail, sAppend_assoc]

/-! Claim theorems. -/

/-- Claim C3, counterexample: two finalization runs over the same
accumulated fragments (same chunk count, duration and accumulated text)
produce different fallback transcript bytes and different fallback summary
bytes when the wall clock read by `new Date().toLocaleString()` differs, so
the fallback builders are not deterministic in the fragments alone. -/
theorem fallback_clock_dependence_cex :
    getFallbackTranscript "clockA" 2 6 "hello world " ≠
      getFallbackTranscript "clockB" 2 6 "hello world " ∧
    generateBasicSummary "clockA" "hello world" ≠
      generateBasicSummary "clockB" "hello world" := by
  constructor <;> decide

/-- Claim C3 (amended): given the same accumulated fragments *and the same
clock reading*, the fallback transcript and fallback summary are
byte-identical; the clock reading enters each output exactly once, as a
contiguous interpolated segment, and everything else is a function of the
fragments. -/
theorem fallback_deterministic_given_clock :
    (∀ (nowStr : String) (c d : Nat) (acc : String),
        getFallbackTranscript nowStr c d acc =
          "Transcript - " ++ nowStr ++ fallbackTranscriptRest c d acc) ∧
    (∀ nowStr t : String,
        generateBasicSummary nowStr t =
          basicSummaryStats t ++ nowStr ++ basicSummaryTail) := by
  constructor
  · intro nowStr c d acc
    simp only [getFallbackTranscript, fallbackTranscriptRest, sAppend_assoc]
  · intro nowStr t
    simp only [generateBasicSummary, basicSummaryStats, basicSummaryTail, sAppend_assoc]

/-- Claim C10: both deterministic transcription simulators stay within
their contracts.  The non-counter variant always answers a phrase of its
fixed 15-phrase list (never empty) with confidence exactly `0.85`; the
counter variant always answers a phrase of its 30-phrase list (never
empty), its modular index never leaves the list, and its rounded, clamped
confidence lies in `[0.75, 0.95]` for every random draw — strictly inside
the `[0, 1]` adapter contract. -/
theorem simulators_within_contract :
    (∀ size now : Nat,
        (Int.floor (jsMod ((size : ℚ) / 1000) 15)).toNat < simulatePhrases.length ∧
        (simulateTranscription size now).text ∈ simulatePhrases ∧
        (simulateTranscription size now).text ≠ "" ∧
        (simulateTranscription size now).confidence = 17/20) ∧
    (∀ (pi size ts : Nat) (rand : ℚ),
        (pi + size / 1000 + ts / 10000) % conversationPhrases.length <
          conversationPhrases.length ∧
        (simulateTranscriptionCounter pi size ts rand).1.text ∈ conversationPhrases ∧
        (simulateTranscriptionCounter pi size ts rand).1.text ≠ "" ∧
        3/4 ≤ (simulateTranscriptionCounter pi size ts rand).1.confidence ∧
        (simulateTranscriptionCounter pi size ts rand).1.confidence ≤ 19/20) := by
  constructor
  · intro size now
    have hb := jsMod_bound ((size : ℚ) / 1000) 15 (by norm_num)
    have h0 : (0 : ℤ) ≤ Int.floor (jsMod ((size : ℚ) / 1000) 15) :=
      Int.le_floor.mpr (by exact_mod_cast hb.1)
    have h15 : Int.floor (jsMod ((size : ℚ) / 1000) 15) < 15 :=
      Int.floor_lt.mpr (by exact_mod_cast hb.2)
    have hidx : (Int.floor (jsMod ((size : ℚ) / 1000) 15)).toNat < 15 := by omega
    have hlen : simulatePhrases.length = 15 := rfl
    have hidx' : (Int.floor (jsMod ((size : ℚ) / 1000) 15)).toNat <
        simulatePhrases.length := by rw [hlen]; exact hidx
    have hmem : (simulateTranscription size now).text ∈ simulatePhrases := by
      simp only [simulateTranscription]
      exact getD_mem_of_lt hidx'
    refine ⟨hidx', hmem, ?_, rfl⟩
    have hne : ∀ x ∈ simulatePhrases, x ≠ "" := by decide
    exact hne _ hmem
  · intro pi size ts rand
    have hlen : conversationPhrases.length = 30 := rfl
    have hidx : (pi + size / 1000 + ts / 10000) % conversationPhrases.length <
        conversationPhrases.length := by
      rw [hlen]
      exact Nat.mod_lt _ (by norm_num)
    have hmem : (simulateTranscriptionCounter pi size ts rand).1.text ∈
        conversationPhrases := by
      simp only [simulateTranscriptionCounter]
      exact getD_mem_of_lt hidx
    have hne : ∀ x ∈ conversationPhrases, x ≠ "" := by decide
    refine ⟨hidx, hmem, hne _ hmem, ?_, ?_⟩
    all_goals
      simp only [simulateTranscriptionCounter]
      have h1 : 3/4 ≤ min ((19 : ℚ)/20) (max (3/4) (17/20 + (rand - 1/2) * (1/10))) :=
        le_min (by norm_num) (le_max_left _ _)
      have h2 : min ((19 : ℚ)/20) (max (3/4) (17/20 + (rand - 1/2) * (1/10))) ≤ 19/20 :=
        min_le_left _ _
      have hr1 : (75 : ℤ) ≤
          round (min ((19 : ℚ)/20) (max (3/4) (17/20 + (rand - 1/2) * (1/10))) * 100) := by
        rw [round_eq]
        exact Int.le_floor.mpr (by push_cast; linarith)
      have hr2 :
          round (min ((19 : ℚ)/20) (max (3/4) (17/20 + (rand - 1/2) * (1/10))) * 100) ≤ 95 := by
        rw [round_eq]
        have hfl : (⌊min ((19 : ℚ)/20) (max (3/4) (17/20 + (rand - 1/2) * (1/10))) * 100 + 1/2⌋ : ℤ) < 96 :=
          Int.floor_lt.mpr (by push_cast; linarith)
        omega
      have hc1 : (75 : ℚ) ≤
          ((round (min ((19 : ℚ)/20) (max (3/4) (17/20 + (rand - 1/2) * (1/10))) * 100) : ℤ) : ℚ) := by
        exact_mod_cast hr1
      have hc2 :
          ((round (min ((19 : ℚ)/20) (max (3/4) (17/20 + (rand - 1/2) * (1/10))) * 100) : ℤ) : ℚ) ≤ 95 := by
        exact_mod_cast hr2
      linarith

/-- Claim C8, counterexample: `generateSummary` sends its transcript to the
real backend without any truncation.  At a 6001-character transcript (one
character over the 6000 budget used by `generateSummaryFromText`), the
prompt it builds differs from the prompt that truncation would produce, so
it is false that every real-backend summarization path first truncates at
the fixed budget. -/
theorem summary_prompt_untruncated_cex :
    6000 < bigText.length ∧
    summaryPrompt bigText ≠ summaryPrompt (trimmedText bigText) := by
  constructor
  · rw [bigText_length]; omega
  · intro heq
    have h1 : (summaryPrompt bigText).length =
        summaryPromptPre.length + 6001 + summaryPromptPost.length := by
      rw [summaryPrompt, sLen_append, sLen_append, bigText_length]
    have h2 : (summaryPrompt (trimmedText bigText)).length =
        summaryPromptPre.length + 6003 + summaryPromptPost.length := by
      rw [summaryPrompt, sLen_append, sLen_append,
        trimmedText_length_gt (by rw [bigText_length]; omega)]
    rw [heq] at h1
    omega

/-- Claim C8 (amended): only the text-summarization path
(`generateSummaryFromText`) truncates deterministically at the fixed
6000-character budget before calling the real backend — inputs at or under
the budget pass unchanged, the truncated text is at most 6003 characters,
and the backend prompt depends only on the truncated text.  The
transcript-summarization path (`generateSummary`) embeds the full
untruncated transcript in its backend prompt.  The deterministic fallback
formatter operates on the full untruncated text: two transcripts agreeing
after truncation can produce different fallback summaries. -/
theorem summarization_truncation_amended :
    (∀ t : String, t.length ≤ 6000 → trimmedText t = t) ∧
    (∀ t : String, (trimmedText t).length ≤ 6003) ∧
    (∀ t : String, fastPrompt t = fastPrompt (trimmedText t)) ∧
    (∀ t : String, summaryPrompt t = summaryPromptPre ++ t ++ summaryPromptPost) ∧
    (trimmedText bigText = trimmedText decideText ∧
      generateBasicSummary "1/1/2026" bigText ≠ generateBasicSummary "1/1/2026" decideText) := by
  refine ⟨fun t h => trimmedText_of_le h, ?_, ?_, fun t => rfl, trims_agree, ?_⟩
  · intro t
    by_cases h : t.length ≤ 6000
    · rw [trimmedText_of_le h]; omega
    · rw [trimmedText_length_gt (by omega)]
  · intro t
    rw [fastPrompt, fastPrompt, trimmedText_idem]
  · intro heq
    rw [basicSummary_factored, basicSummary_factored] at heq
    have hs := sAppend_right_cancel (sAppend_right_cancel heq)
    rw [stats_bigText, stats_decideText] at hs
    exact absurd hs (by decide)

/-- Witness for the amended C8 theorem at concrete inputs. -/
theorem summarization_truncation_amended_witness :
    trimmedText "abc" = "abc" ∧ fastPrompt "abc" = fastPrompt (trimmedText "abc") :=
  ⟨summarization_truncation_amended.1 "abc" (by decide),
   summarization_truncation_amended.2.2.1 "abc"⟩

theorem arun_seqOps (cs : List AChunk) : ∀ s : AsyncState, s.pending = [] →
    (arun (seqOps cs) s).events = s.events ++ seqEventsFrom s.chunks.length cs ∧
    (arun (seqOps cs) s).pending = [] := by
  induction cs with
  | nil =>
    intro s hp
    simp [arun, seqOps, seqEventsFrom, hp]
  | cons c cs ih =>
    intro s hp
    have hstep : arun (seqOps (c :: cs)) s =
        arun (seqOps cs) (astep (astep s (.arrive c)) (.resolveTask 0)) := by
      simp [arun, seqOps, List.foldl_cons]
    have h1 : astep s (.arrive c) =
        { s with chunks := s.chunks ++ [(c.data, c.ts)]
                 pending := [(c.tx, c.ts)] } := by
      simp [astep, hp]
    have h2 : astep (astep s (.arrive c)) (.resolveTask 0) =
        { s with chunks := s.chunks ++ [(c.data, c.ts)]
                 pending := []
                 transcript := s.transcript ++ c.tx ++ " "
                 events := s.events ++
                   [.transcriptPartialEvt c.tx c.ts (s.chunks.length + 1)] } := by
      rw [h1]
      simp [astep, List.length_append]
    rw [hstep, h2]
    have := ih { s with chunks := s.chunks ++ [(c.data, c.ts)]
                        pending := []
                        transcript := s.transcript ++ c.tx ++ " "
                        events := s.events ++
                          [.transcriptPartialEvt c.tx c.ts (s.chunks.length + 1)] } rfl
    rcases this with ⟨hev, hpend⟩
    refine ⟨?_, hpend⟩
    rw [hev]
    simp [List.length_append, seqEventsFrom, List.append_assoc]

/-- Claim C4, counterexample: ingestion of one session is not serialized.
The `audio:chunk` handler suspends at its adapter `await` and reads
`chunkNumber` from the chunk count at emission time, so when chunk 2's
adapter call resolves before chunk 1's (adapter latency variance), the
partial events are emitted out of arrival order and both carry
`chunkNumber` 2 — not the claimed order `C1, C2` with numbers `1, 2`. -/
theorem ingestion_not_serialized_cex :
    (arun [AOp.arrive ⟨"d1", 10, "one"⟩, AOp.arrive ⟨"d2", 20, "two"⟩,
           AOp.resolveTask 1, AOp.resolveTask 0] initAsync).events =
      [SEvent.transcriptPartialEvt "two" 20 2,
       SEvent.transcriptPartialEvt "one" 10 2] ∧
    (arun [AOp.arrive ⟨"d1", 10, "one"⟩, AOp.arrive ⟨"d2", 20, "two"⟩,
           AOp.resolveTask 1, AOp.resolveTask 0] initAsync).events ≠
      seqEventsFrom 0 [⟨"d1", 10, "one"⟩, ⟨"d2", 20, "two"⟩] := by
  constructor <;> decide

/-- Claim C4 (amended): the code does not serialize in-flight chunks of one
session, so the ordering guarantee holds only for sequential execution:
when each chunk's adapter call resolves before the next chunk arrives, the
`transcript:partial` events are emitted in arrival order `C1..Cn` with
`chunkNumber` values `1..n`, and the `session:completed` event of a stop
finalized afterwards is emitted strictly after all of them. -/
theorem seq_ingestion_ordered (cs : List AChunk) (tr su : String) :
    (arun (seqOps cs ++ [AOp.stopFinalize tr su]) initAsync).events =
      seqEventsFrom 0 cs ++ [SEvent.sessionCompleted tr su] := by
  have h := arun_seqOps cs initAsync rfl
  have h1 : (arun (seqOps cs) initAsync).events = seqEventsFrom 0 cs := by
    rw [h.1]
    simp [initAsync]
  simp only [arun, List.foldl_append, List.foldl_cons, List.foldl_nil]
  simp only [arun] at h1
  simp [astep, h1]

theorem audioChunk_db (st : ServerState) (env : Env) (p : ChunkPayload) (now : Nat) :
    (handleAudioChunk st env p now).1.db = st.db := by
  cases hA : st.activeSession with
  | none => simp [handleAudioChunk, hA]
  | some info =>
    by_cases hr : env.sttReady
    · simp [handleAudioChunk, hA, hr]
    · simp [handleAudioChunk, hA, hr]

/-- Claim C1: for any per-call adapter outcomes — including every adapter
call failing — processing a stop on a connection with an active session
emits exactly one `session:completed` event, carrying a transcript and a
summary, strictly after the `processing` status update; the stored status
ends at `completed` (never stuck at `processing`) and the registry entry is
removed.  Persistence is modelled as the spec's step-4 success path, as the
claim quantifies only over adapter failures. -/
theorem stop_reaches_completed (st : ServerState) (env : Env) (sid : Nat)
    (nowStr : String) (nowMs : Nat) (info : SessionInfo)
    (h : st.activeSession = some info) :
    ∃ tr su,
      (handleStop st env sid nowStr nowMs).2 =
        [SEvent.statusUpdateEvt "processing", SEvent.sessionCompleted tr su] ∧
      lookupA (handleStop st env sid nowStr nowMs).1.db sid = some "completed" ∧
      (handleStop st env sid nowStr nowMs).1.activeSession = none := by
  refine ⟨(geminiGenerateTranscript st.geminiData env sid nowStr).2.1,
          (geminiGenerateTranscript st.geminiData env sid nowStr).2.2, ?_, ?_, ?_⟩
  · simp [handleStop, h]
  · simp [handleStop, h, lookupA_assocSet]
  · simp [handleStop, h]

/-- Witness for C1 at a concrete session with every adapter call failing. -/
theorem stop_reaches_completed_witness :
    ∃ tr su,
      (handleStop baseState failEnv 1 "1/1/2026" 5000).2 =
        [SEvent.statusUpdateEvt "processing", SEvent.sessionCompleted tr su] ∧
      lookupA (handleStop baseState failEnv 1 "1/1/2026" 5000).1.db 1 =
        some "completed" ∧
      (handleStop baseState failEnv 1 "1/1/2026" 5000).1.activeSession = none :=
  stop_reaches_completed baseState failEnv 1 "1/1/2026" 5000 baseInfo rfl

/-- Claim C2, counterexample: with session 1 stored as `paused`, an
arriving audio chunk is not rejected with a stale-state signal — it is
stored, transcribed and answered with a `transcript:partial` event; and a
`session:pause` on a session stored as `processing` (not `recording`)
still rewrites the stored state to `paused`, mutating it. -/
theorem chunk_while_paused_cex :
    (handleAudioChunk pausedState simEnv
        { sessionId := 1, data := "abc", timestamp := 5 } 7).2 =
      [SEvent.transcriptPartialEvt
        (simulateTranscription ("abc").length 7).text 5 1] ∧
    (handleAudioChunk pausedState simEnv
        { sessionId := 1, data := "abc", timestamp := 5 } 7).1.activeSession =
      some { sessionId := 1, mode := "microphone"
             chunks := [{ data := "abc", timestamp := 5 }]
             transcript := "" ++ (simulateTranscription ("abc").length 7).text ++ " "
             startTime := 0 } ∧
    (handlePause { baseState with db := [(1, "processing")] } 1).1.db =
      [(1, "paused")] ∧
    (handlePause { baseState with db := [(1, "processing")] } 1).2 =
      [SEvent.statusUpdateEvt "paused"] :=
  ⟨rfl, rfl, rfl, rfl⟩

/-- Claim C2 (amended): the command handlers never consult the stored
session state.  `audio:chunk` behaves identically whatever status the
store holds (chunks arriving while paused are ingested and transcribed,
not rejected), and `session:pause` unconditionally writes `paused` from
any state. -/
theorem handlers_ignore_session_state :
    (∀ (st : ServerState) (d : List (Nat × String)) (env : Env)
        (p : ChunkPayload) (now : Nat),
        handleAudioChunk { st with db := d } env p now =
          ({ (handleAudioChunk st env p now).1 with db := d },
           (handleAudioChunk st env p now).2)) ∧
    (∀ (st : ServerState) (sid : Nat),
        handlePause st sid =
          ({ st with db := assocSet st.db sid "paused" },
           [SEvent.statusUpdateEvt "paused"])) := by
  constructor
  · intro st d env p now
    cases st with
    | mk a sdb du tt gd =>
      cases a with
      | none => rfl
      | some info =>
        by_cases hr : env.sttReady
        · simp [handleAudioChunk, hr]
        · simp [handleAudioChunk, hr]
  · intro st sid
    rfl

/-- Claim C5, counterexample: a `session:start` on a connection that
already owns the non-terminal session 1 does not fail — it emits
`session:started` for the fresh identifier and replaces the registry
entry. -/
theorem second_start_replaces_cex :
    baseState.activeSession = some baseInfo ∧
    (handleSessionStart baseState 2 99 "tab-audio").1.activeSession =
      some { sessionId := 2, mode := "tab-audio", chunks := [], transcript := ""
             startTime := 99 } ∧
    (handleSessionStart baseState 2 99 "tab-audio").2 = [SEvent.sessionStarted 2] :=
  ⟨rfl, rfl, rfl⟩

/-- Claim C5 (amended): `session:start` never checks for an existing
session: even when the connection owns a non-terminal session, the start
succeeds, creates the new database row and replaces the connection's
registry entry with the fresh session. -/
theorem start_always_replaces (st : ServerState) (newId now : Nat) (mode : String)
    (old : SessionInfo) (h : st.activeSession = some old) :
    (handleSessionStart st newId now mode).1.activeSession =
      some { sessionId := newId, mode := mode, chunks := [], transcript := ""
             startTime := now } ∧
    (handleSessionStart st newId now mode).2 = [SEvent.sessionStarted newId] ∧
    (handleSessionStart st newId now mode).1.db = assocSet st.db newId "recording" :=
  ⟨rfl, rfl, rfl⟩

/-- Witness for the amended C5 theorem. -/
theorem start_always_replaces_witness :
    (handleSessionStart baseState 2 99 "tab-audio").1.activeSession =
      some { sessionId := 2, mode := "tab-audio", chunks := [], transcript := ""
             startTime := 99 } ∧
    (handleSessionStart baseState 2 99 "tab-audio").2 = [SEvent.sessionStarted 2] ∧
    (handleSessionStart baseState 2 99 "tab-audio").1.db =
      assocSet baseState.db 2 "recording" :=
  start_always_replaces baseState 2 99 "tab-audio" baseInfo rfl

/-- Claim C6, counterexample: a recording session with buffered data whose
connection disconnects is not moved to an `interrupted` state with its
partial data retained — the registry entry (and the chunk and transcript
buffers it holds) is deleted immediately and the stored status still reads
`recording`. -/
theorem disconnect_discards_cex :
    (handleDisconnect recState).1.activeSession = none ∧
    lookupA (handleDisconnect recState).1.db 1 = some "recording" ∧
    (handleDisconnect recState).2 = [] :=
  ⟨rfl, rfl, rfl⟩

/-- Claim C6 (amended): there is no grace-window sweep and no
`interrupted` state.  A disconnect deletes the connection's registry entry
(discarding its in-memory chunks and partial transcripts) without touching
the stored status, and no command handler ever writes the status
`interrupted`. -/
theorem no_interrupted_state :
    (∀ st : ServerState, handleDisconnect st = ({ st with activeSession := none }, [])) ∧
    (∀ (st : ServerState) (c : Cmd) (kv : Nat × String),
        kv ∈ (stepCmd st c).1.db → kv.2 = "interrupted" → kv ∈ st.db) := by
  constructor
  · intro st
    rfl
  · intro st c kv hmem hint
    cases c with
    | start newId now mode =>
      simp only [stepCmd, handleSessionStart] at hmem
      rcases mem_assocSet hmem with h | h
      · exact h
      · subst h; simp at hint
    | chunk p env now =>
      rw [show (stepCmd st (.chunk p env now)).1.db =
            (handleAudioChunk st env p now).1.db from rfl,
          audioChunk_db] at hmem
      exact hmem
    | pause sid =>
      simp only [stepCmd, handlePause] at hmem
      rcases mem_assocSet hmem with h | h
      · exact h
      · subst h; simp at hint
    | resume sid =>
      simp only [stepCmd, handleResume] at hmem
      rcases mem_assocSet hmem with h | h
      · exact h
      · subst h; simp at hint
    | stop sid env nowStr nowMs =>
      simp only [stepCmd, handleStop] at hmem
      cases hA : st.activeSession with
      | none => rw [hA] at hmem; exact hmem
      | some info =>
        rw [hA] at hmem
        simp only at hmem
        rcases mem_assocSet hmem with h | h
        · rcases mem_assocSet h with h' | h'
          · exact h'
          · subst h'; simp at hint
        · subst h; simp at hint
    | upload p env nowStr procMs =>
      simp only [stepCmd, handleVideoUpload] at hmem
      cases hA : st.activeSession with
      | none => rw [hA] at hmem; exact hmem
      | some info =>
        rw [hA] at hmem
        simp only at hmem
        by_cases hsz : p.fileSize > 100 * 1024 * 1024
        · rw [if_pos hsz] at hmem; exact hmem
        · rw [if_neg hsz] at hmem
          cases hE : env.extract with
          | none => rw [hE] at hmem; exact hmem
          | some tx =>
            rw [hE] at hmem
            simp only at hmem
            by_cases htr : jsTrim tx = ""
            · rw [if_pos htr] at hmem; exact hmem
            · rw [if_neg htr] at hmem
              simp only at hmem
              rcases mem_assocSet hmem with h | h
              · exact h
              · subst h; simp at hint
    | disconnect =>
      exact hmem

/-- Witness for the amended C6 theorem: a pre-existing row keeps its value
through a command, and the conclusion places it back in the old store. -/
theorem no_interrupted_state_witness :
    ((2 : Nat), "interrupted") ∈
      (stepCmd ⟨none, [(2, "interrupted")], [], [], []⟩ (Cmd.pause 1)).1.db ∧
    ((2 : Nat), "interrupted") ∈ ([(2, "interrupted")] : List (Nat × String)) :=
  ⟨by decide,
   no_interrupted_state.2 ⟨none, [(2, "interrupted")], [], [], []⟩ (Cmd.pause 1)
     (2, "interrupted") (by decide) rfl⟩

/-- Claim C7: a failing transcription backend call is absorbed locally.
With the speech client configured but its `recognize` call failing (or
timing out), the chunk handler still emits a single `transcript:partial`
event whose text is the deterministic simulator fallback — no error event,
no session termination — the chunk and fallback fragment are recorded on
the session, and the next chunk of the same session is ingested normally
with the next chunk number. -/
theorem chunk_failure_absorbed (st : ServerState) (env : Env)
    (p q : ChunkPayload) (now now2 : Nat) (info : SessionInfo)
    (h : st.activeSession = some info) (hready : env.sttReady = true)
    (hclient : env.sttClient = true) (hfail : env.recognize = none)
    (hmodel : env.modelPresent = false) :
    (handleAudioChunk st env p now).2 =
      [SEvent.transcriptPartialEvt (simulateTranscription p.data.length now).text
        p.timestamp (info.chunks.length + 1)] ∧
    (handleAudioChunk st env p now).1.activeSession =
      some { info with
        chunks := info.chunks ++ [{ data := p.data, timestamp := p.timestamp }]
        transcript := info.transcript ++
          (simulateTranscription p.data.length now).text ++ " " } ∧
    (handleAudioChunk (handleAudioChunk st env p now).1 env q now2).2 =
      [SEvent.transcriptPartialEvt (simulateTranscription q.data.length now2).text
        q.timestamp (info.chunks.length + 2)] := by
  have hstt : ∀ sz nw, sttTranscribeAudio env sz nw = simulateTranscription sz nw := by
    intro sz nw
    simp [sttTranscribeAudio, hclient, hfail]
  refine ⟨?_, ?_, ?_⟩
  · simp [handleAudioChunk, h, hready, geminiTranscribeAudio, hstt, hmodel,
      List.length_append]
  · simp [handleAudioChunk, h, hready, geminiTranscribeAudio, hstt, hmodel]
  · simp [handleAudioChunk, h, hready, geminiTranscribeAudio, hstt, hmodel,
      List.length_append]

/-- Witness for C7 at a concrete two-chunk run with a failing backend. -/
theorem chunk_failure_absorbed_witness :
    (handleAudioChunk baseState
        ⟨true, true, none, false, none, none, none, none, none, "boom"⟩
        ⟨1, "abc", 5⟩ 7).2 =
      [SEvent.transcriptPartialEvt (simulateTranscription 3 7).text 5 1] ∧
    (handleAudioChunk baseState
        ⟨true, true, none, false, none, none, none, none, none, "boom"⟩
        ⟨1, "abc", 5⟩ 7).1.activeSession =
      some { baseInfo with
        chunks := [{ data := "abc", timestamp := 5 }]
        transcript := "" ++ (simulateTranscription 3 7).text ++ " " } ∧
    (handleAudioChunk
        (handleAudioChunk baseState
          ⟨true, true, none, false, none, none, none, none, none, "boom"⟩
          ⟨1, "abc", 5⟩ 7).1
        ⟨true, true, none, false, none, none, none, none, none, "boom"⟩
        ⟨1, "de", 6⟩ 9).2 =
      [SEvent.transcriptPartialEvt (simulateTranscription 2 9).text 6 2] :=
  chunk_failure_absorbed baseState
    ⟨true, true, none, false, none, none, none, none, none, "boom"⟩
    ⟨1, "abc", 5⟩ ⟨1, "de", 6⟩ 7 9 baseInfo rfl rfl rfl rfl rfl

/-- Claim C9: a `video:upload` whose declared `fileSize` exceeds the
configured 100 MB maximum is rejected with the specific size-limit error
before any processing: no extraction, no summary, no persistence write and
no state change — the returned state is exactly the input state and the
only event is the size-limit `video:error`. -/
theorem oversized_upload_rejected (st : ServerState) (env : Env)
    (p : UploadPayload) (nowStr : String) (procMs : Nat) (info : SessionInfo)
    (h : st.activeSession = some info)
    (hsize : 100 * 1024 * 1024 < p.fileSize) :
    handleVideoUpload st env p nowStr procMs =
      (st, [SEvent.videoErrorEvt "Video file too large. Maximum size is 100MB."]) := by
  simp only [handleVideoUpload, h]
  rw [if_pos hsize]

/-- Witness for C9: a declared 150 MB upload against the 100 MB limit. -/
theorem oversized_upload_rejected_witness :
    handleVideoUpload baseState failEnv ⟨1, "", "big.mp4", 157286400⟩ "1/1/2026" 3 =
      (baseState,
       [SEvent.videoErrorEvt "Video file too large. Maximum size is 100MB."]) :=
  oversized_upload_rejected baseState failEnv ⟨1, "", "big.mp4", 157286400⟩
    "1/1/2026" 3 baseInfo rfl (by norm_num)

end ScribeAI
